import Mathlib

/-!
Verification development for the urban-morphology classification app.

The repository under study has three source files:
* `app/config_parser.py` — INI configuration reading (`read_config`);
* `app/pages/2_classification_page.py` — the interactive page: ZIP upload into
  session state, cluster-count recommendation, classification, CSV/GDB export;
* `app/plot_funcs.py` — plotting and tabulation of per-cluster results.

Python data frames are embedded as `Table` (a header list plus rows of string
cells); numeric series (flexibility scores, VIF values) are embedded as
association lists over `ℚ`, an idealisation of the floating-point values the
code manipulates.  Streamlit session state is a record of optional tables.
Functions of the repository keep their source names where Lean allows it.
-/

/-- A pandas `DataFrame`, abstracted to its header and cell grid. -/
structure Table where
  cols : List String
  rows : List (List String)
deriving DecidableEq, Repr

/-- Streamlit session state: the keys the classification page reads and writes
(`merged`, `metrics_with_percentiles`, `standardized`, `buildings`,
`urban_types`), each either absent or holding a data frame. -/
structure SessionState where
  merged : Option Table
  metrics_with_percentiles : Option Table
  standardized : Option Table
  buildings : Option Table
  urban_types : Option Table
deriving DecidableEq, Repr

/-! ## `config_parser.read_config`

An INI file is abstracted to its section structure: a list of
(section name, list of (option, value)) pairs.  `configparser.get` with a
`fallback` returns the fallback when either the section or the option is
absent. -/

/-- Look up option `key` in section `sec` of an INI file. -/
def iniLookup (cfg : List (String × List (String × String))) (sec key : String) :
    Option String :=
  match List.lookup sec cfg with
  | none => none
  | some entries => List.lookup key entries

/-- `config.get(sec, key, fallback=fb)`: the stored value, or `fb` when the
section or option is missing. -/
def configGet (cfg : List (String × List (String × String))) (sec key fb : String) :
    String :=
  (iniLookup cfg sec key).getD fb

/-- `config_parser.read_config`: builds the `params` dict with exactly the keys
`data_dir`, `output_dir`, `gdb_bld_path`, each taken from the `[Paths]` section
with fallback `./`. -/
def read_config (cfg : List (String × List (String × String))) :
    List (String × String) :=
  [ ("data_dir", configGet cfg "Paths" "data_dir" "./"),
    ("output_dir", configGet cfg "Paths" "output_dir" "./"),
    ("gdb_bld_path", configGet cfg "Paths" "gdb_bld_path" "./") ]

/-! ## ZIP upload handler (`2_classification_page.py` lines 44-74)

The handler receives the name list of the uploaded archive and (for present
entries) the parsed CSV content.  It computes the missing expected files; when
some are missing it emits one error message naming them, joined by a comma and
space, and touches nothing; otherwise it parses the four CSVs and stores them
under the four session-state keys. -/

/-- The four file names the upload handler requires. -/
def expected_files : List String :=
  ["merged.csv", "metrics_with_percentiles.csv", "standardized.csv", "buildings.csv"]

/-- Outcome of the upload handler: the new session state, and the error message
if one was shown. -/
def upload_zip_handler (names : List String) (content : String → Table)
    (s : SessionState) : SessionState × Option String :=
  let missing_files := expected_files.filter (fun f => ¬ names.contains f)
  if missing_files.isEmpty then
    ({ s with
        merged := some (content "merged.csv"),
        metrics_with_percentiles := some (content "metrics_with_percentiles.csv"),
        standardized := some (content "standardized.csv"),
        buildings := some (content "buildings.csv") },
      none)
  else
    (s, some ("Missing files in the ZIP: " ++ String.intercalate ", " missing_files))

/-! ## Cluster-count selection (`2_classification_page.py` line 94)

`st.selectbox("Select number of clusters:", options=range(2, 21), index=5)`
offers exactly the integers 2..20 and preselects the element at index 5. -/

/-- The option list of the cluster-count selectbox: `range(2, 21)`. -/
def cluster_options : List Nat := List.range' 2 19

/-- The preselected index of the selectbox. -/
def cluster_default_index : Nat := 5

/-- The cluster count a selection at index `i` yields (the selectbox can only
return an element of its option list). -/
def selected_clusters_num (i : Fin cluster_options.length) : Nat :=
  cluster_options.get i

/-! ## Clustering model (`generate_clusters`, consumed by the page)

The module `generate_clusters` (providing `add_cluster_col`,
`best_davies_bouldin_score`, ...) is imported by the page but its file is not
part of the reviewed sources; the definitions below are modelled from the spec.
Floating-point feature values are idealised as `ℚ`; the interpretation of a
cell string as a number is passed in as a valuation `val`. -/

/-- One step of a linear congruential generator, the idealised pseudo-random
source behind a `random_state` seed. -/
def lcg (n : Nat) : Nat := (1103515245 * n + 12345) % 2 ^ 31

/-- The `i`-th pseudo-random draw from seed `seed`. -/
def lcgStream (seed : Nat) : Nat → Nat
  | 0 => lcg seed
  | i + 1 => lcg (lcgStream seed i)

/-- Squared euclidean distance between two feature vectors. -/
def sqdist (p q : List ℚ) : ℚ :=
  ((p.zip q).map (fun c => (c.1 - c.2) ^ 2)).sum

/-- Componentwise sum of a list of vectors. -/
def sumVec : List (List ℚ) → List ℚ
  | [] => []
  | [v] => v
  | v :: vs => ((v.zip (sumVec vs)).map (fun c => c.1 + c.2))

/-- Componentwise mean of a nonempty list of vectors. -/
def meanVec (vs : List (List ℚ)) : List ℚ :=
  (sumVec vs).map (fun x => x / (vs.length : ℚ))

/-- Index of the centroid nearest to `p` (first wins on ties). -/
def nearestIdx (cs : List (List ℚ)) (p : List ℚ) : Nat :=
  (cs.enum.foldl
    (fun best c => if sqdist c.2 p < sqdist best.2 p then c else best)
    (0, [])).1

/-- Label every point with its nearest centroid. -/
def assignLabels (cs : List (List ℚ)) (pts : List (List ℚ)) : List Nat :=
  pts.map (nearestIdx cs)

/-- Recompute centroid `i` as the mean of its assigned points (kept unchanged
when no point is assigned to it). -/
def updateCentroid (pts : List (List ℚ)) (labels : List Nat) (i : Nat)
    (old : List ℚ) : List ℚ :=
  let mine := ((pts.zip labels).filter (fun pl => pl.2 = i)).map Prod.fst
  if mine.isEmpty then old else meanVec mine

/-- One Lloyd iteration: assign, then move every centroid. -/
def kmeansStep (pts : List (List ℚ)) (cs : List (List ℚ)) : List (List ℚ) :=
  let labels := assignLabels cs pts
  cs.enum.map (fun c => updateCentroid pts labels c.1 c.2)

/-- `fuel` Lloyd iterations from the given centroids. -/
def kmeansIter (pts : List (List ℚ)) : Nat → List (List ℚ) → List (List ℚ)
  | 0, cs => cs
  | f + 1, cs => kmeansIter pts f (kmeansStep pts cs)

/-- Seed-determined initial centroids: `k` pseudo-random picks among the
points. -/
def initCentroids (seed k : Nat) (pts : List (List ℚ)) : List (List ℚ) :=
  (List.range k).map (fun i => pts.getD (lcgStream seed i % pts.length) [])

/-- A full k-means run from a seed: final labels and centroids. -/
def kmeansRun (fuel seed k : Nat) (pts : List (List ℚ)) :
    List Nat × List (List ℚ) :=
  let cs := kmeansIter pts fuel (initCentroids seed k pts)
  (assignLabels cs pts, cs)

/-- Within-cluster sum of squared distances of a run, the quantity k-means
minimises over restarts. -/
def inertia (pts : List (List ℚ)) (labels : List Nat)
    (cs : List (List ℚ)) : ℚ :=
  ((pts.zip labels).map (fun pl => sqdist pl.1 (cs.getD pl.2 []))).sum

/-- Best of `n_init` seeded restarts by inertia (mirrors the `n_init`
parameter the page passes). -/
def kmeansBest (fuel n_init seed k : Nat) (pts : List (List ℚ)) :
    List Nat × List (List ℚ) :=
  (List.range n_init).foldl
    (fun best i =>
      let cand := kmeansRun fuel (seed + i + 1) k pts
      if inertia pts cand.1 cand.2 < inertia pts best.1 best.2 then cand else best)
    (kmeansRun fuel seed k pts)

/-- Numeric view of a data frame under a cell valuation. -/
def numericRows (val : String → ℚ) (t : Table) : List (List ℚ) :=
  t.rows.map (fun r => r.map val)

/-- Modelled from the spec: `add_cluster_col` of the module
`generate_clusters` is not under src/; per spec section 4.2 the classifier
fits the clustering model on the feature table, assigns a label per row, and
attaches it onto the original records, and is deterministic given a fixed
random seed (otherwise stochastic).  `random_state` is that optional fixed
seed; `entropy` stands for the ambient randomness a run draws on when no seed
is fixed. -/
def add_cluster_col (val : String → ℚ) (random_state : Option Nat)
    (entropy fuel : Nat) (merged _buildings standardized : Table) (k : Nat) :
    Table :=
  let seed := random_state.getD entropy
  let labels := (kmeansRun fuel seed k (numericRows val standardized)).1
  { cols := merged.cols ++ ["cluster"],
    rows := (merged.rows.zip labels).map (fun rl => rl.1 ++ [toString rl.2]) }

/-- Per-cluster mean squared distance to the centroid (cluster scatter). -/
def clusterScatter (pts : List (List ℚ)) (labels : List Nat)
    (cs : List (List ℚ)) (i : Nat) : ℚ :=
  let mine := ((pts.zip labels).filter (fun pl => pl.2 = i)).map Prod.fst
  if mine.isEmpty then 0
  else (mine.map (fun p => sqdist p (cs.getD i []))).sum / (mine.length : ℚ)

/-- Davies-Bouldin style index of a clustering: mean over clusters of the
worst scatter-to-separation ratio (squared distances, since the embedding is
over `ℚ`); lower is better. -/
def davies_bouldin (pts : List (List ℚ)) (labels : List Nat)
    (cs : List (List ℚ)) : ℚ :=
  let R := fun i =>
    ((List.range cs.length).filter (fun j => j ≠ i)).foldl
      (fun acc j =>
        let d := sqdist (cs.getD i []) (cs.getD j [])
        if d = 0 then acc
        else max acc ((clusterScatter pts labels cs i + clusterScatter pts labels cs j) / d))
      0
  if cs.length = 0 then 0
  else ((List.range cs.length).map R).sum / (cs.length : ℚ)

/-- Davies-Bouldin score of the best restart for candidate count `k`. -/
def dbScore (fuel n_init seed k : Nat) (pts : List (List ℚ)) : ℚ :=
  let run := kmeansBest fuel n_init seed k pts
  davies_bouldin pts run.1 run.2

/-- First element minimising `f` (none only on the empty list). -/
def argminQ {α : Type} (f : α → ℚ) : List α → Option α
  | [] => none
  | x :: xs => some (xs.foldl (fun best y => if f y < f best then y else best) x)

/-- Modelled from the spec: `best_davies_bouldin_score` of the module
`generate_clusters` is not under src/; per spec section 4.1 the recommender,
for each candidate count in the search range, repeatedly fits the model with
different random seeds, records the Davies-Bouldin score, and reports the
counts that most frequently minimise it across the repeats. -/
def best_davies_bouldin_score (val : String → ℚ) (standardized : Table)
    (min_clusters max_clusters n_init random_state rep fuel : Nat) : List Nat :=
  let pts := numericRows val standardized
  let candidates := List.range' min_clusters (max_clusters + 1 - min_clusters)
  let minimisers := (List.range rep).filterMap
    (fun r => argminQ (fun k => dbScore fuel n_init (random_state + r) k pts) candidates)
  let best_count := (minimisers.map (fun k => minimisers.count k)).foldl max 0
  minimisers.dedup.filter (fun k => minimisers.count k = best_count)

/-! ## Page action handlers (`2_classification_page.py` lines 82-138) -/

/-- The user-visible outcome of a page action. -/
inductive Effect
  | ranClassification
  | warnedMissingData
  | savedFiles
  | erroredSaving
  | warnedUploadFirst
deriving DecidableEq, Repr

/-- The fixed random seed the classification step runs under (spec section
4.2: deterministic given a fixed random seed; the sibling recommender call
fixes `random_state=42`). -/
def classifier_random_state : Option Nat := some 42

/-- The `Run classification` button handler: only when all four prerequisite
keys are present does it run `add_cluster_col` and store `urban_types`;
otherwise it warns and leaves the state alone. -/
def run_classification_handler (val : String → ℚ) (entropy fuel : Nat)
    (s : SessionState) (k : Nat) : SessionState × Effect :=
  match s.merged, s.standardized, s.metrics_with_percentiles, s.buildings with
  | some merged, some standardized, some _percentiles, some buildings =>
      let urban_types :=
        add_cluster_col val classifier_random_state entropy fuel
          merged buildings standardized k
      ({ s with urban_types := some urban_types }, Effect.ranClassification)
  | _, _, _, _ => (s, Effect.warnedMissingData)

/-- The save section: with `urban_types` present it converts and saves the
table (exceptions are caught and shown, never propagated); without it, it
warns.  `save_ok` abstracts whether the underlying file writes succeed. -/
def save_handler (save_ok : Bool) (s : SessionState) : SessionState × Effect :=
  match s.urban_types with
  | some _ => if save_ok then (s, Effect.savedFiles) else (s, Effect.erroredSaving)
  | none => (s, Effect.warnedUploadFirst)

/-! ## Flexibility-score table (`plot_funcs.py` lines 40-74 and 357-399)

A flexibility-score series is an association list from metric name to score.
`pandas.Series.nlargest` / `nsmallest` sort by value (descending resp.
ascending), keeping the first occurrence on ties, and take the head; Mathlib
insertion sort has exactly this stability. -/

/-- Descending value order on (metric, score) pairs. -/
def descOrder (a b : String × ℚ) : Prop := b.2 ≤ a.2

/-- Ascending value order on (metric, score) pairs. -/
def ascOrder (a b : String × ℚ) : Prop := a.2 ≤ b.2

instance : DecidableRel descOrder := fun a b => inferInstanceAs (Decidable (b.2 ≤ a.2))

instance : DecidableRel ascOrder := fun a b => inferInstanceAs (Decidable (a.2 ≤ b.2))

instance : IsTotal (String × ℚ) descOrder := ⟨fun a b => le_total b.2 a.2⟩

instance : IsTrans (String × ℚ) descOrder := ⟨fun _ _ _ h1 h2 => le_trans h2 h1⟩

instance : IsTotal (String × ℚ) ascOrder := ⟨fun a b => le_total a.2 b.2⟩

instance : IsTrans (String × ℚ) ascOrder := ⟨fun _ _ _ h1 h2 => le_trans h1 h2⟩

/-- `Series.nlargest(k)`: the `k` largest entries, first occurrence winning
ties. -/
def nlargest (k : Nat) (s : List (String × ℚ)) : List (String × ℚ) :=
  (List.insertionSort descOrder s).take k

/-- `Series.nsmallest(k)`: the `k` smallest entries, first occurrence winning
ties. -/
def nsmallest (k : Nat) (s : List (String × ℚ)) : List (String × ℚ) :=
  (List.insertionSort ascOrder s).take k

/-- The row both flexibility-table functions build for one cluster: its top-5
and bottom-5 metrics by flexibility score. -/
def flexTableRow (flexibility_score : List (String × ℚ)) :
    List (String × ℚ) × List (String × ℚ) :=
  (nlargest 5 flexibility_score, nsmallest 5 flexibility_score)

/-! ## Per-cluster result bundle (`plot_funcs.py` consumers) -/

/-- The per-cluster entry of the results dictionary: flexibility score per
metric, VIF table, outlier subset, basic stats. -/
structure ClusterResult where
  flexibility_score : List (String × ℚ)
  vif : List (String × ℚ)
  outliers : Table
  basic_stats : List (String × ℚ)
deriving DecidableEq, Repr

/-- The results dictionary: cluster id to its result bundle. -/
abbrev Results := List (Nat × ClusterResult)

/-! ## Overall VIF (`plot_funcs.py` lines 234-256 and 462-486)

`plot_overall_vif` concatenates the per-cluster VIF series column-wise,
aligned on the feature index, and takes the row mean; a feature missing from
some cluster contributes nothing there (`mean` skips absent values). -/

/-- The VIF values recorded for feature `f` across the clusters that have
it. -/
def vifValues (results : Results) (f : String) : List ℚ :=
  results.filterMap (fun c => List.lookup f c.2.vif)

/-- The overall VIF the aggregation computes for feature `f`: the mean of its
recorded per-cluster values. -/
def plot_overall_vif_mean (results : Results) (f : String) : ℚ :=
  let vals := vifValues results f
  if vals.isEmpty then 0 else vals.sum / (vals.length : ℚ)

/-! ## Outlier plotting (`plot_funcs.py` lines 402-459)

`streamlit_plot_outliers` walks the clusters and executes
`cluster_outliers["cluster"] = cluster` on the outlier frame stored in the
results dictionary: a column assignment that adds (or overwrites) the
`cluster` column in place. -/

/-- `t[name] = v`: overwrite column `name` with the constant `v`, or append it
when absent. -/
def setColumn (t : Table) (name v : String) : Table :=
  if name ∈ t.cols then
    { cols := t.cols,
      rows := t.rows.map (fun r => (t.cols.zip r).map (fun c => if c.1 = name then v else c.2)) }
  else
    { cols := t.cols ++ [name], rows := t.rows.map (fun r => r ++ [v]) }

/-- The effect of `streamlit_plot_outliers` on the results dictionary: every
per-cluster outlier frame gains a constant `cluster` column; the other entries
of each bundle are only read. -/
def streamlit_plot_outliers_effect (results : Results) : Results :=
  results.map (fun c =>
    (c.1, { c.2 with outliers := setColumn c.2.outliers "cluster" (toString c.1) }))

/-! ## CSV export round-trip (`2_classification_page.py` lines 16-19, 126-129)

`convert_df` runs `DataFrame.to_csv()` with default arguments, which writes
the row index as an unnamed leading column; `pandas.read_csv` names an
unnamed header field `Unnamed: <position>`.  A CSV file is abstracted to its
grid of fields. -/

/-- `DataFrame.to_csv()`: a header starting with an empty field for the index,
then each row prefixed by its index. -/
def to_csv (t : Table) : List (List String) :=
  ("" :: t.cols) :: t.rows.enum.map (fun r => toString r.1 :: r.2)

/-- How `read_csv` names the header field at position `i`. -/
def readHeaderField (i : Nat) (h : String) : String :=
  if h = "" then "Unnamed: " ++ toString i else h

/-- `pandas.read_csv` on a field grid: first record is the header (empty
fields renamed), the rest are the rows. -/
def read_csv (csv : List (List String)) : Option Table :=
  match csv with
  | [] => none
  | header :: rows =>
      some { cols := header.enum.map (fun c => readHeaderField c.1 c.2), rows := rows }

/-! ## Theorems -/

/-- Claim C6: `read_config` returns a mapping with exactly the keys
`data_dir`, `output_dir`, `gdb_bld_path`, each taken from the `[Paths]`
section of the INI file, defaulting to `./` when the entry is absent. -/
theorem read_config_exact_keys_and_defaults
    (cfg : List (String × List (String × String))) :
    (read_config cfg).map Prod.fst = ["data_dir", "output_dir", "gdb_bld_path"] ∧
    ∀ key, key ∈ (["data_dir", "output_dir", "gdb_bld_path"] : List String) →
      (iniLookup cfg "Paths" key = none →
        List.lookup key (read_config cfg) = some "./") ∧
      (∀ v, iniLookup cfg "Paths" key = some v →
        List.lookup key (read_config cfg) = some v) := by
  refine ⟨rfl, ?_⟩
  intro key hkey
  simp only [List.mem_cons, List.mem_singleton, List.not_mem_nil, or_false] at hkey
  rcases hkey with rfl | rfl | rfl <;>
    exact ⟨fun h => by simp [read_config, configGet, List.lookup, h],
           fun v h => by simp [read_config, configGet, List.lookup, h]⟩

/-- Witness for C6 on a concrete INI file: a present key keeps its stored
value, an absent one falls back to `./`. -/
theorem read_config_exact_keys_and_defaults_witness :
    List.lookup "data_dir"
        (read_config [("Paths", [("data_dir", "/data")])]) = some "/data" ∧
    List.lookup "output_dir"
        (read_config [("Paths", [("data_dir", "/data")])]) = some "./" := by
  refine ⟨?_, ?_⟩
  · exact ((read_config_exact_keys_and_defaults
      [("Paths", [("data_dir", "/data")])]).2 "data_dir" (by decide)).2 "/data" (by decide)
  · exact ((read_config_exact_keys_and_defaults
      [("Paths", [("data_dir", "/data")])]).2 "output_dir" (by decide)).1 (by decide)

/-- Claim C1: when the uploaded ZIP lacks required files the handler reports
exactly the missing names (state untouched); it populates all four keys
exactly when every required file is present. -/
theorem upload_zip_handler_spec (names : List String) (content : String → Table)
    (s : SessionState) :
    ((∃ f ∈ expected_files, f ∉ names) →
      upload_zip_handler names content s =
        (s, some ("Missing files in the ZIP: " ++ String.intercalate ", "
            (expected_files.filter (fun f => ¬ names.contains f)))) ∧
      ∀ f, f ∈ expected_files.filter (fun f => ¬ names.contains f) ↔
        (f ∈ expected_files ∧ f ∉ names)) ∧
    ((∀ f ∈ expected_files, f ∈ names) →
      (upload_zip_handler names content s).2 = none ∧
      (upload_zip_handler names content s).1.merged = some (content "merged.csv") ∧
      (upload_zip_handler names content s).1.metrics_with_percentiles
        = some (content "metrics_with_percentiles.csv") ∧
      (upload_zip_handler names content s).1.standardized
        = some (content "standardized.csv") ∧
      (upload_zip_handler names content s).1.buildings
        = some (content "buildings.csv")) := by
  have hmem : ∀ f, f ∈ expected_files.filter (fun f => ¬ names.contains f) ↔
      (f ∈ expected_files ∧ f ∉ names) := by
    intro f
    simp [List.mem_filter]
  constructor
  · intro hex
    have hne : ¬ (expected_files.filter (fun f => ¬ names.contains f)).isEmpty := by
      obtain ⟨f, hf1, hf2⟩ := hex
      have hf : f ∈ expected_files.filter (fun f => ¬ names.contains f) :=
        (hmem f).mpr ⟨hf1, hf2⟩
      rw [List.isEmpty_iff]
      intro hnil
      rw [hnil] at hf
      simp at hf
    exact ⟨by simp only [upload_zip_handler, if_neg hne], hmem⟩
  · intro hall
    have he : (expected_files.filter (fun f => ¬ names.contains f)).isEmpty := by
      simp [List.isEmpty_iff, List.filter_eq_nil_iff]
      intro f hf
      exact hall f hf
    simp only [upload_zip_handler, if_pos he]
    simp

/-- Witness for C1: a ZIP holding only `merged.csv` misses a required file,
and the handler leaves the (here empty) session state unchanged. -/
theorem upload_zip_handler_spec_witness :
    (∃ f ∈ expected_files, f ∉ (["merged.csv"] : List String)) ∧
    (upload_zip_handler ["merged.csv"] (fun _ => { cols := [], rows := [] })
        { merged := none, metrics_with_percentiles := none, standardized := none,
          buildings := none, urban_types := none }).1 =
      { merged := none, metrics_with_percentiles := none, standardized := none,
        buildings := none, urban_types := none } := by
  refine ⟨⟨"standardized.csv", by decide, by decide⟩, ?_⟩
  have h := (upload_zip_handler_spec ["merged.csv"] (fun _ => { cols := [], rows := [] })
      { merged := none, metrics_with_percentiles := none, standardized := none,
        buildings := none, urban_types := none }).1
      ⟨"standardized.csv", by decide, by decide⟩
  rw [h.1]

/-- Claim C10: the cluster-count selectbox offers exactly the integers 2..20,
its default (index 5) is 7, and hence any selected count handed to
`add_cluster_col` lies between 2 and 20. -/
theorem clusters_num_selection_range :
    (∀ k : Nat, k ∈ cluster_options ↔ (2 ≤ k ∧ k ≤ 20)) ∧
    (∀ i : Fin cluster_options.length,
      2 ≤ selected_clusters_num i ∧ selected_clusters_num i ≤ 20) ∧
    selected_clusters_num ⟨cluster_default_index, by decide⟩ = 7 := by
  have hrange : ∀ k : Nat, k ∈ cluster_options ↔ (2 ≤ k ∧ k ≤ 20) := by
    intro k
    rw [cluster_options, List.mem_range'_1]
    constructor <;> (intro h; omega)
  refine ⟨hrange, ?_, by decide⟩
  intro i
  have h : cluster_options.get i ∈ cluster_options := List.get_mem cluster_options i.1 i.2
  exact (hrange _).mp h

/-- Claim C4 (spec-modelled, `generate_clusters` is not under src/): under a
fixed random seed, two classification runs on the same data and cluster count
produce identical label assignments, whatever ambient entropy each run draws. -/
theorem add_cluster_col_deterministic (val : String → ℚ) (seed e1 e2 fuel : Nat)
    (merged buildings standardized : Table) (k : Nat) :
    add_cluster_col val (some seed) e1 fuel merged buildings standardized k =
      add_cluster_col val (some seed) e2 fuel merged buildings standardized k := rfl

/-- Claim C8: a missing prerequisite key turns the dependent action into a
warning: classification does not run (state unchanged) and the save section
does not save. -/
theorem prerequisite_warnings :
    (∀ (val : String → ℚ) (entropy fuel : Nat) (s : SessionState) (k : Nat),
      (s.merged = none ∨ s.standardized = none ∨
        s.metrics_with_percentiles = none ∨ s.buildings = none) →
      run_classification_handler val entropy fuel s k = (s, Effect.warnedMissingData)) ∧
    (∀ (save_ok : Bool) (s : SessionState), s.urban_types = none →
      save_handler save_ok s = (s, Effect.warnedUploadFirst)) := by
  constructor
  · intro val entropy fuel s k h
    obtain ⟨m, p, st, b, u⟩ := s
    cases m <;> cases p <;> cases st <;> cases b <;>
      first
        | rfl
        | simp_all
  · intro save_ok s h
    obtain ⟨m, p, st, b, u⟩ := s
    dsimp only at h
    subst h
    rfl

/-- Witness for C8: with an empty session state, pressing the classification
button warns and leaves the state empty, and so does the save section. -/
theorem prerequisite_warnings_witness :
    run_classification_handler (fun _ => 0) 0 0
        { merged := none, metrics_with_percentiles := none, standardized := none,
          buildings := none, urban_types := none } 7 =
      ({ merged := none, metrics_with_percentiles := none, standardized := none,
         buildings := none, urban_types := none }, Effect.warnedMissingData) ∧
    save_handler true
        { merged := none, metrics_with_percentiles := none, standardized := none,
          buildings := none, urban_types := none } =
      ({ merged := none, metrics_with_percentiles := none, standardized := none,
         buildings := none, urban_types := none }, Effect.warnedUploadFirst) :=
  ⟨prerequisite_warnings.1 (fun _ => 0) 0 0 _ 7 (Or.inl rfl),
   prerequisite_warnings.2 true _ rfl⟩

/-- When `g` succeeds on every element, `filterMap g` is the map of the forced
values. -/
theorem filterMap_eq_map_getD {α β : Type} (g : α → Option β) (d : β)
    (l : List α) (h : ∀ a ∈ l, (g a).isSome) :
    l.filterMap g = l.map (fun a => (g a).getD d) := by
  induction l with
  | nil => rfl
  | cons a t ih =>
    obtain ⟨v, hv⟩ := Option.isSome_iff_exists.mp (h a (List.mem_cons_self a t))
    rw [List.filterMap_cons, List.map_cons, hv]
    simp only [Option.getD_some]
    rw [ih (fun x hx => h x (List.mem_cons_of_mem a hx))]

/-- Claim C3: when every cluster records a VIF value for feature `f`, the
overall VIF the aggregation computes for `f` is the arithmetic mean of the
per-cluster values over all clusters. -/
theorem plot_overall_vif_mean_is_mean (results : Results) (f : String)
    (hall : ∀ c ∈ results, (List.lookup f c.2.vif).isSome)
    (hne : results ≠ []) :
    plot_overall_vif_mean results f =
      (results.map (fun c => (List.lookup f c.2.vif).getD 0)).sum /
        (results.length : ℚ) := by
  have hfm : vifValues results f =
      results.map (fun c => (List.lookup f c.2.vif).getD 0) :=
    filterMap_eq_map_getD _ 0 results hall
  have hlen : (vifValues results f).length = results.length := by
    rw [hfm, List.length_map]
  have hne2 : ¬ (vifValues results f).isEmpty := by
    rw [List.isEmpty_iff]
    intro h0
    apply hne
    have := hlen
    rw [h0] at this
    exact List.length_eq_zero.mp this.symm
  rw [plot_overall_vif_mean]
  simp only [if_neg hne2]
  rw [hfm, ← hfm, hlen]

/-- Witness for C3: two clusters with VIF 2 and 4 for feature `a` satisfy the
hypotheses, and the aggregate equals their arithmetic mean expression. -/
theorem plot_overall_vif_mean_is_mean_witness :
    (∀ c ∈ ([(0, { flexibility_score := [], vif := [("a", (2 : ℚ))],
                    outliers := { cols := [], rows := [] }, basic_stats := [] }),
             (1, { flexibility_score := [], vif := [("a", (4 : ℚ))],
                    outliers := { cols := [], rows := [] }, basic_stats := [] })] : Results),
      (List.lookup "a" c.2.vif).isSome) ∧
    plot_overall_vif_mean
        [(0, { flexibility_score := [], vif := [("a", (2 : ℚ))],
                outliers := { cols := [], rows := [] }, basic_stats := [] }),
         (1, { flexibility_score := [], vif := [("a", (4 : ℚ))],
                outliers := { cols := [], rows := [] }, basic_stats := [] })] "a" =
      (([(0, { flexibility_score := [], vif := [("a", (2 : ℚ))],
                outliers := { cols := [], rows := [] }, basic_stats := [] }),
         (1, { flexibility_score := [], vif := [("a", (4 : ℚ))],
                outliers := { cols := [], rows := [] }, basic_stats := [] })] : Results).map
          (fun c => (List.lookup "a" c.2.vif).getD 0)).sum / (2 : ℚ) :=
  ⟨by decide, plot_overall_vif_mean_is_mean _ "a" (by decide) (by decide)⟩

/-- `read_csv` header renaming is the identity on a block of nonempty names,
wherever the enumeration starts. -/
theorem enumFrom_readHeaderField (l : List String) (n : Nat) (h : "" ∉ l) :
    (l.enumFrom n).map (fun c => readHeaderField c.1 c.2) = l := by
  induction l generalizing n with
  | nil => rfl
  | cons a t ih =>
    have ha : a ≠ "" := fun hc => h (hc ▸ List.mem_cons_self a t)
    have ht : "" ∉ t := fun hc => h (List.mem_cons_of_mem a hc)
    simp only [List.enumFrom, List.map_cons]
    rw [ih (n + 1) ht]
    simp only [readHeaderField, if_neg ha]

/-- Counterexample to claim C7 as stated: writing the one-column table `a`
with `to_csv` (which emits the index) and reloading yields an extra
`Unnamed: 0` column, so the column set is not reproduced. -/
theorem csv_roundtrip_counterexample :
    read_csv (to_csv { cols := ["a"], rows := [["1"]] }) =
      some { cols := ["Unnamed: 0", "a"], rows := [["0", "1"]] } ∧
    "Unnamed: 0" ∉ ({ cols := ["a"], rows := [["1"]] } : Table).cols ∧
    "Unnamed: 0" ∈ ({ cols := ["Unnamed: 0", "a"], rows := [["0", "1"]] } : Table).cols := by
  decide

/-- Claim C7 as amended: reloading a written table reproduces the row count
and all original columns, but prepends the extra index column `Unnamed: 0`
(so the column set is the original plus that one column). -/
theorem csv_roundtrip_amended (t : Table) (h : "" ∉ t.cols) :
    ∃ t2, read_csv (to_csv t) = some t2 ∧
      t2.rows.length = t.rows.length ∧
      t2.cols = "Unnamed: 0" :: t.cols := by
  refine ⟨_, rfl, ?_, ?_⟩
  · simp [to_csv, read_csv]
  · show (("" :: t.cols).enum).map (fun c => readHeaderField c.1 c.2) =
      "Unnamed: 0" :: t.cols
    rw [List.enum_cons]
    simp only [List.map_cons]
    rw [enumFrom_readHeaderField t.cols 1 h]
    rfl

/-- Witness for C7 amended: the concrete table from the counterexample
satisfies the hypothesis and the amended round-trip property. -/
theorem csv_roundtrip_amended_witness :
    ∃ t2, read_csv (to_csv { cols := ["a"], rows := [["1"]] }) = some t2 ∧
      t2.rows.length = ({ cols := ["a"], rows := [["1"]] } : Table).rows.length ∧
      t2.cols = "Unnamed: 0" :: ({ cols := ["a"], rows := [["1"]] } : Table).cols :=
  csv_roundtrip_amended { cols := ["a"], rows := [["1"]] } (by decide)

/-- Assigning to an absent column appends it, extending every row. -/
theorem setColumn_of_not_mem (t : Table) (name v : String) (h : name ∉ t.cols) :
    (setColumn t name v).cols = t.cols ++ [name] ∧
    (setColumn t name v).rows = t.rows.map (fun r => r ++ [v]) := by
  rw [setColumn, if_neg h]
  exact ⟨rfl, rfl⟩

/-- Counterexample to claim C9 as stated: `streamlit_plot_outliers` executes
a column assignment on each stored outlier frame, so plotting changes the
result bundle at this concrete input. -/
theorem streamlit_plot_outliers_not_readonly :
    streamlit_plot_outliers_effect
        [(0, { flexibility_score := [], vif := [],
               outliers := { cols := ["g"], rows := [["x"]] }, basic_stats := [] })] ≠
      [(0, { flexibility_score := [], vif := [],
             outliers := { cols := ["g"], rows := [["x"]] }, basic_stats := [] })] ∧
    (streamlit_plot_outliers_effect
        [(0, { flexibility_score := [], vif := [],
               outliers := { cols := ["g"], rows := [["x"]] }, basic_stats := [] })]).map
        (fun c => c.2.outliers) =
      [{ cols := ["g", "cluster"], rows := [["x", "0"]] }] := by
  decide

/-- Claim C9 as amended: the bundle is read-only for its consumers except
that `streamlit_plot_outliers` writes a constant `cluster` column into each
per-cluster outlier subset; cluster keys, flexibility scores, VIF tables and
basic stats are untouched, and an absent `cluster` column is appended. -/
theorem streamlit_plot_outliers_mutation (results : Results) :
    (streamlit_plot_outliers_effect results).length = results.length ∧
    ∀ (i : Nat) (h1 : i < (streamlit_plot_outliers_effect results).length)
      (h2 : i < results.length),
      ((streamlit_plot_outliers_effect results).get ⟨i, h1⟩).1 =
        (results.get ⟨i, h2⟩).1 ∧
      ((streamlit_plot_outliers_effect results).get ⟨i, h1⟩).2.flexibility_score =
        (results.get ⟨i, h2⟩).2.flexibility_score ∧
      ((streamlit_plot_outliers_effect results).get ⟨i, h1⟩).2.vif =
        (results.get ⟨i, h2⟩).2.vif ∧
      ((streamlit_plot_outliers_effect results).get ⟨i, h1⟩).2.basic_stats =
        (results.get ⟨i, h2⟩).2.basic_stats ∧
      ((streamlit_plot_outliers_effect results).get ⟨i, h1⟩).2.outliers =
        setColumn (results.get ⟨i, h2⟩).2.outliers "cluster"
          (toString (results.get ⟨i, h2⟩).1) ∧
      ("cluster" ∉ (results.get ⟨i, h2⟩).2.outliers.cols →
        ((streamlit_plot_outliers_effect results).get ⟨i, h1⟩).2.outliers.cols =
          (results.get ⟨i, h2⟩).2.outliers.cols ++ ["cluster"]) := by
  refine ⟨by simp [streamlit_plot_outliers_effect], ?_⟩
  intro i h1 h2
  have hg : (streamlit_plot_outliers_effect results).get ⟨i, h1⟩ =
      ((results.get ⟨i, h2⟩).1,
        { results.get ⟨i, h2⟩ |>.2 with
            outliers := setColumn (results.get ⟨i, h2⟩).2.outliers "cluster"
              (toString (results.get ⟨i, h2⟩).1) }) := by
    simp [streamlit_plot_outliers_effect, List.getElem_map]
  rw [hg]
  refine ⟨rfl, rfl, rfl, rfl, rfl, ?_⟩
  intro habs
  exact (setColumn_of_not_mem _ _ _ habs).1

/-- Witness for C9 amended: at a concrete one-cluster bundle whose outlier
frame lacks a `cluster` column, plotting appends exactly that column. -/
theorem streamlit_plot_outliers_mutation_witness :
    ((streamlit_plot_outliers_effect
        [(3, { flexibility_score := [("m", (1 : ℚ))], vif := [("m", (1 : ℚ))],
               outliers := { cols := ["geom"], rows := [["p1"]] },
               basic_stats := [] })]).get ⟨0, by decide⟩).2.outliers.cols =
      ["geom"] ++ ["cluster"] :=
  (((streamlit_plot_outliers_mutation
      [(3, { flexibility_score := [("m", (1 : ℚ))], vif := [("m", (1 : ℚ))],
             outliers := { cols := ["geom"], rows := [["p1"]] },
             basic_stats := [] })]).2 0 (by decide) (by decide)).2.2.2.2.2) (by decide)

/-- A fold that keeps either the accumulator or a better list element lands in
the accumulator or the list. -/
theorem foldl_min_choice {α : Type} (f : α → ℚ) :
    ∀ (xs : List α) (acc : α),
      xs.foldl (fun best y => if f y < f best then y else best) acc = acc ∨
      xs.foldl (fun best y => if f y < f best then y else best) acc ∈ xs := by
  intro xs
  induction xs with
  | nil => exact fun acc => Or.inl rfl
  | cons y ys ih =>
    intro acc
    rw [List.foldl_cons]
    rcases ih (if f y < f acc then y else acc) with h | h
    · rw [h]
      by_cases hc : f y < f acc
      · exact Or.inr (by rw [if_pos hc]; exact List.mem_cons_self y ys)
      · exact Or.inl (by rw [if_neg hc])
    · exact Or.inr (List.mem_cons_of_mem y h)

/-- `argminQ` only returns elements of its list. -/
theorem argminQ_mem {α : Type} (f : α → ℚ) (l : List α) (a : α)
    (h : argminQ f l = some a) : a ∈ l := by
  cases l with
  | nil => cases h
  | cons x xs =>
    rw [argminQ] at h
    injection h with h
    rcases foldl_min_choice f xs x with h2 | h2
    · rw [← h, h2]
      exact List.mem_cons_self x xs
    · rw [← h]
      exact List.mem_cons_of_mem x h2

/-- Claim C5 (spec-modelled, `generate_clusters` is not under src/): every
candidate count the recommender reports, as the page invokes it with
`min_clusters=1` and `max_clusters=15`, lies between 1 and 15 inclusive. -/
theorem best_davies_bouldin_score_in_range (val : String → ℚ)
    (standardized : Table) (n_init random_state rep fuel : Nat) :
    (best_davies_bouldin_score val standardized 1 15 n_init random_state
        rep fuel).Forall (fun k => 1 ≤ k ∧ k ≤ 15) := by
  rw [List.forall_iff_forall_mem]
  intro k hk
  simp only [best_davies_bouldin_score] at hk
  have h1 := List.mem_of_mem_filter hk
  have h2 := List.mem_dedup.mp h1
  obtain ⟨r, _, hr⟩ := List.mem_filterMap.mp h2
  have h3 := argminQ_mem _ _ _ hr
  rw [List.mem_range'_1] at h3
  omega

/-- In a list sorted by `R`, an element of its `k`-prefix is preceded by fewer
than `k` elements beating it under a predicate incompatible with `R`. -/
theorem countP_lt_of_mem_take {α : Type} (R : α → α → Prop) (l : List α)
    (hs : l.Pairwise R) (p : α → Bool) (k : Nat) (x : α)
    (hx : x ∈ l.take k) (hpx : p x = false)
    (himp : ∀ y, R x y → p y = false) :
    l.countP p < k := by
  obtain ⟨i, hi, hgi⟩ := List.mem_iff_getElem.mp hx
  have hilen : i < min k l.length := by
    simpa [List.length_take] using hi
  have hik : i < k := lt_of_lt_of_le hilen (min_le_left _ _)
  have hil : i < l.length := lt_of_lt_of_le hilen (min_le_right _ _)
  have hx2 : l.get ⟨i, hil⟩ = x := by
    rw [← hgi, List.getElem_take]
    rfl
  have hsplit : l.countP p = (l.take i).countP p + (l.drop i).countP p := by
    conv_lhs => rw [← List.take_append_drop i l]
    rw [List.countP_append]
  have hdrop : (l.drop i).countP p = 0 := by
    rw [List.countP_eq_zero]
    intro y hy
    obtain ⟨j, hj, hgj⟩ := List.mem_iff_getElem.mp hy
    have hjlen : i + j < l.length := by
      have : j < l.length - i := by simpa [List.length_drop] using hj
      omega
    have hyval : l.get ⟨i + j, hjlen⟩ = y := by
      rw [← hgj, List.getElem_drop]
      rfl
    rcases Nat.eq_zero_or_pos j with hj0 | hjpos
    · subst hj0
      have hyx : y = x := by
        rw [← hyval, ← hx2]
        rfl
      rw [hyx, hpx]
      simp
    · have hR : R (l.get ⟨i, hil⟩) (l.get ⟨i + j, hjlen⟩) :=
        List.pairwise_iff_getElem.mp hs i (i + j) hil hjlen (by omega)
      rw [hx2, hyval] at hR
      rw [himp y hR]
      simp
  have htake : (l.take i).countP p ≤ i := by
    calc (l.take i).countP p ≤ (l.take i).length := List.countP_le_length p
    _ ≤ i := by simp [List.length_take]
  omega

/-- With pairwise-distinct score values, exactly one entry carries the value
of a member. -/
theorem countP_eq_val_one (s : List (String × ℚ)) (x : String × ℚ)
    (hdist : s.Pairwise (fun a b => a.2 ≠ b.2)) (hx : x ∈ s) :
    s.countP (fun y => decide (y.2 = x.2)) = 1 := by
  induction s with
  | nil => cases hx
  | cons a t ih =>
    rw [List.countP_cons]
    rcases List.mem_cons.mp hx with rfl | hxt
    · have h0 : t.countP (fun y => decide (y.2 = x.2)) = 0 := by
        rw [List.countP_eq_zero]
        intro y hy
        have hne := (List.pairwise_cons.mp hdist).1 y hy
        simp only [decide_eq_true_eq]
        exact fun hc => hne hc.symm
      rw [h0]
      simp
    · have hne : a.2 ≠ x.2 := (List.pairwise_cons.mp hdist).1 x hxt
      rw [ih (List.pairwise_cons.mp hdist).2 hxt]
      simp [hne]

/-- Each entry is above, below, or at a reference value: the three counts
partition the length. -/
theorem length_eq_three_countP (x2 : ℚ) (l : List (String × ℚ)) :
    l.length = l.countP (fun y => decide (x2 < y.2)) +
      l.countP (fun y => decide (y.2 < x2)) +
      l.countP (fun y => decide (y.2 = x2)) := by
  induction l with
  | nil => rfl
  | cons a t ih =>
    simp only [List.length_cons, List.countP_cons, ih]
    rcases lt_trichotomy x2 a.2 with h | h | h
    · simp [h, not_lt.mpr h.le, h.ne']
      omega
    · simp [h, lt_irrefl]
      omega
    · simp [h, not_lt.mpr h.le, h.ne]
      omega

/-- Counterexample to claim C2 as stated: with six distinct-valued metrics the
top-5 and bottom-5 selections overlap (here in the entry `e`), so they are
not disjoint for every series. -/
theorem flexibility_top5_bottom5_counterexample :
    ("e", (5 : ℚ)) ∈ nlargest 5 [("a", (1 : ℚ)), ("b", 2), ("c", 3), ("d", 4), ("e", 5), ("f", 6)] ∧
    ("e", (5 : ℚ)) ∈ nsmallest 5 [("a", (1 : ℚ)), ("b", 2), ("c", 3), ("d", 4), ("e", 5), ("f", 6)] := by
  decide

/-- Claim C2 as amended: for a flexibility-score series with at least 10
metrics and pairwise-distinct scores, the top-5 and bottom-5 selections are
disjoint and together have exactly 10 entries; with fewer than 10 metrics (or
tied scores) they may overlap, as the counterexample shows. -/
theorem flexibility_top5_bottom5 (s : List (String × ℚ))
    (h10 : 10 ≤ s.length) (hdist : s.Pairwise (fun a b => a.2 ≠ b.2)) :
    (∀ x ∈ nlargest 5 s, x ∉ nsmallest 5 s) ∧
    (nlargest 5 s).length + (nsmallest 5 s).length = 10 := by
  constructor
  · intro x hxT hxB
    rw [nlargest] at hxT
    rw [nsmallest] at hxB
    have hpermD := List.perm_insertionSort descOrder s
    have hpermA := List.perm_insertionSort ascOrder s
    have hgtD : (List.insertionSort descOrder s).countP
        (fun y => decide (x.2 < y.2)) < 5 := by
      refine countP_lt_of_mem_take descOrder _ (List.sorted_insertionSort descOrder s)
        _ 5 x hxT (by simp) ?_
      intro y hR
      simp only [descOrder] at hR
      simp [not_lt.mpr hR]
    have hltA : (List.insertionSort ascOrder s).countP
        (fun y => decide (y.2 < x.2)) < 5 := by
      refine countP_lt_of_mem_take ascOrder _ (List.sorted_insertionSort ascOrder s)
        _ 5 x hxB (by simp) ?_
      intro y hR
      simp only [ascOrder] at hR
      simp [not_lt.mpr hR]
    have hgt : s.countP (fun y => decide (x.2 < y.2)) < 5 := by
      rw [← hpermD.countP_eq]
      exact hgtD
    have hlt : s.countP (fun y => decide (y.2 < x.2)) < 5 := by
      rw [← hpermA.countP_eq]
      exact hltA
    have hxs : x ∈ s := by
      have := List.take_subset 5 (List.insertionSort descOrder s) hxT
      exact (List.mem_insertionSort descOrder).mp this
    have heq1 := countP_eq_val_one s x hdist hxs
    have hlen := length_eq_three_countP x.2 s
    omega
  · have hD := (List.perm_insertionSort descOrder s).length_eq
    have hA := (List.perm_insertionSort ascOrder s).length_eq
    rw [nlargest, nsmallest, List.length_take, List.length_take, hD, hA]
    omega

/-- Witness for C2 amended: ten distinct-valued metrics satisfy the
hypotheses; the top metric is not among the bottom five and the two
selections cover exactly 10 entries. -/
theorem flexibility_top5_bottom5_witness :
    ("m9", (9 : ℚ)) ∉ nsmallest 5
      [("m0", (0 : ℚ)), ("m1", 1), ("m2", 2), ("m3", 3), ("m4", 4),
       ("m5", 5), ("m6", 6), ("m7", 7), ("m8", 8), ("m9", 9)] ∧
    (nlargest 5
      [("m0", (0 : ℚ)), ("m1", 1), ("m2", 2), ("m3", 3), ("m4", 4),
       ("m5", 5), ("m6", 6), ("m7", 7), ("m8", 8), ("m9", 9)]).length +
    (nsmallest 5
      [("m0", (0 : ℚ)), ("m1", 1), ("m2", 2), ("m3", 3), ("m4", 4),
       ("m5", 5), ("m6", 6), ("m7", 7), ("m8", 8), ("m9", 9)]).length = 10 :=
  ⟨(flexibility_top5_bottom5 _ (by decide) (by decide)).1 ("m9", (9 : ℚ)) (by decide),
   (flexibility_top5_bottom5 _ (by decide) (by decide)).2⟩
